import Mathlib

/-!
Verification of the psychopy native-extension shims
(`src/psychopy/ext/_bits.c`, `_win32.c`, `posix.c`, `posix_maxpriority.c`).

Each C function is a thin wrapper around a single OS or vendor call. We
embed each wrapper as a pure Lean function parameterised by an oracle for
the wrapped native call, and we return alongside the Python-level result an
explicit trace of the native calls that were made (with their exact
arguments), so that pass-through and no-side-effect properties are
statable. Returning `Option.none` models the C code returning `NULL`
(raising a Python error); `Option.some n` models `Py_BuildValue("i", n)`.
-/

namespace PsychopyExt

/-- A Python-level argument value, used to model `PyArg_ParseTuple`. -/
inductive PyObj where
  | int (n : Int)
  | str (s : String)
  | pyNone
deriving DecidableEq, Repr

/-- Embedding of `PyArg_ParseTuple(args, "i", &x)`: the argument tuple
parses exactly when it is a single integer object, whose value is
returned. -/
def parseTuple_i : List PyObj → Option Int
  | [PyObj.int n] => Option.some n
  | _ => Option.none

/-- A call into the Bits++ vendor library, recorded with its exact
argument. -/
inductive BitsCall where
  | bitsInitCall (Filename : String)
  | bitsSetVideoModeCall (ModeFlags : Int)
deriving DecidableEq, Repr

/-- Embedding of `bits_init` from `_bits.c`:
`if (bitsInit("") < 0) return NULL; else return Py_BuildValue("i", 1);`.
The vendor routine `bitsInit` is an oracle from the configuration string
to its status code. The second component is the trace of vendor calls. -/
def bits_init (bitsInit : String → Int) : Option Int × List BitsCall :=
  ((if bitsInit "" < 0 then Option.none else Option.some 1),
   [BitsCall.bitsInitCall ""])

/-- Embedding of `bits_setVideoMode` from `_bits.c`: parse a single
integer `videoMode`, returning `NULL` (with no vendor call) on a parse
failure; otherwise `if (bitsSetVideoMode(videoMode)) return NULL; else
return Py_BuildValue("i", 1);` — the C condition is true exactly when the
vendor status is nonzero. -/
def bits_setVideoMode (bitsSetVideoMode : Int → Int) (args : List PyObj) :
    Option Int × List BitsCall :=
  match parseTuple_i args with
  | Option.none => (Option.none, [])
  | Option.some videoMode =>
      ((if bitsSetVideoMode videoMode ≠ 0 then Option.none else Option.some 1),
       [BitsCall.bitsSetVideoModeCall videoMode])

/-- Two successive invocations of `bits_init`. `vendor k` is the oracle
answering the `(k+1)`-st `bitsInit` call, so the vendor is free to answer
differently the second time (e.g. `E_ALREADYOPEN = -10`). The shim itself
holds no mutable state (there is no static variable in `_bits.c`), so the
sequence is literally two independent evaluations; we collect both results
and the concatenated vendor-call trace. -/
def bits_init_twice (vendor : Nat → String → Int) :
    (Option Int × Option Int) × List BitsCall :=
  (((bits_init (vendor 0)).fst, (bits_init (vendor 1)).fst),
   (bits_init (vendor 0)).snd ++ (bits_init (vendor 1)).snd)

/-- Pseudo-handles returned by `GetCurrentProcess` / `GetCurrentThread`. -/
inductive W32Handle where
  | currentProcess
  | currentThread
deriving DecidableEq, Repr

/-- Embedding of the Windows `GetCurrentProcess()` pseudo-handle. -/
def GetCurrentProcess : W32Handle := W32Handle.currentProcess

/-- Embedding of the Windows `GetCurrentThread()` pseudo-handle. -/
def GetCurrentThread : W32Handle := W32Handle.currentThread

/-- Embedding of the Windows `DEVMODE` record, restricted to the fields
`posix.c` touches: `dmDriverExtra` (set to 0 before the call) and
`dmDisplayFrequency` (a `DWORD`, the vertical refresh rate in Hz). -/
structure DEVMODE where
  dmDriverExtra : Int
  dmDisplayFrequency : Nat
deriving DecidableEq, Repr

/-- Windows defines `ENUM_CURRENT_SETTINGS` as `((DWORD)-1)`. -/
def ENUM_CURRENT_SETTINGS : Int := -1

/-- A call into the Windows API, recorded with its exact arguments. -/
inductive W32Call where
  | setPriorityClassCall (hProcess : W32Handle) (dwPriorityClass : Int)
  | setThreadPriorityCall (hThread : W32Handle) (nPriority : Int)
  | enumDisplaySettingsCall (lpszDeviceName : Option String) (iModeNum : Int)
deriving DecidableEq, Repr

/-- C conversion of an `int` value to `unsigned short`: reduction modulo
`2^16` into the range `[0, 65535]`. On `Int`, `%` is `Int.emod`, whose
result for a positive modulus lies in `[0, 65536)`, matching the C
semantics of the conversion. -/
def toUShort (x : Int) : Int := x % 65536

/-- Embedding of `win32_setProcessPriority` (identical in `_win32.c` and
`posix.c`): `retval = (unsigned short)SetPriorityClass(GetCurrentProcess(),
priority_class); return Py_BuildValue("i", retval);`. The OS routine
`SetPriorityClass` is an oracle from (handle, priority class) to its
integer result. -/
def win32_setProcessPriority (SetPriorityClass : W32Handle → Int → Int)
    (priority_class : Int) : Int × List W32Call :=
  (toUShort (SetPriorityClass GetCurrentProcess priority_class),
   [W32Call.setPriorityClassCall GetCurrentProcess priority_class])

/-- Embedding of `win32_setThreadPriority` (identical in `_win32.c` and
`posix.c`): `retval = (unsigned short)SetThreadPriority(GetCurrentThread(),
priority); return Py_BuildValue("i", retval);`. -/
def win32_setThreadPriority (SetThreadPriority : W32Handle → Int → Int)
    (priority : Int) : Int × List W32Call :=
  (toUShort (SetThreadPriority GetCurrentThread priority),
   [W32Call.setThreadPriorityCall GetCurrentThread priority])

/-- Embedding of `win32_getRefresh` from `posix.c`: it calls
`EnumDisplaySettings(NULL, ENUM_CURRENT_SETTINGS, &DevMode)` and, when
that call succeeds, returns `Py_BuildValue("f", DevMode.dmDisplayFrequency)`
(the retrieved refresh rate as a Python float); when the call fails it
returns `NULL`. The oracle is `Option DEVMODE`: `Option.some dm` models the
OS filling the record and returning a nonzero `BOOL`, `Option.none` models
the OS being unable to retrieve the current settings. We keep the numeric
value of the frequency (a `DWORD`) as the result. -/
def win32_getRefresh (EnumDisplaySettings : Option DEVMODE) :
    Option Nat × List W32Call :=
  match EnumDisplaySettings with
  | Option.some DevMode =>
      (Option.some DevMode.dmDisplayFrequency,
       [W32Call.enumDisplaySettingsCall Option.none ENUM_CURRENT_SETTINGS])
  | Option.none =>
      (Option.none,
       [W32Call.enumDisplaySettingsCall Option.none ENUM_CURRENT_SETTINGS])

/-- Embedding of POSIX `struct sched_param`, restricted to the one field
`posix_maxpriority.c` sets. -/
structure sched_param where
  sched_priority : Int
deriving DecidableEq, Repr

/-- A call into the POSIX API, recorded with its exact arguments. -/
inductive PosixCall where
  | schedSetschedulerCall (pid : Int) (policy : Int) (param : sched_param)
  | mlockallCall (flags : Nat)
deriving DecidableEq, Repr

/-- Embedding of `set_self_policy_priority` from `posix_maxpriority.c`:
`params.sched_priority = priority; return sched_setscheduler(0, policy,
&params);`. The OS routine is an oracle from (pid, policy, param record)
to its status code, which is returned verbatim. -/
def set_self_policy_priority (sched_setscheduler : Int → Int → sched_param → Int)
    (policy : Int) (priority : Int) : Int × List PosixCall :=
  (sched_setscheduler 0 policy { sched_priority := priority },
   [PosixCall.schedSetschedulerCall 0 policy { sched_priority := priority }])

/-- Embedding of `stop_memory_paging` from `posix_maxpriority.c`. The flag
`mclDefined` models the preprocessor test
`#if defined(MCL_CURRENT) && defined(MCL_FUTURE)`: when it holds the
function returns `mlockall(MCL_CURRENT | MCL_FUTURE)`, otherwise it
returns 0 without any native call. The numeric values of the two platform
macros are passed in abstractly. -/
def stop_memory_paging (mclDefined : Bool) (mlockall : Nat → Int)
    (MCL_CURRENT : Nat) (MCL_FUTURE : Nat) : Int × List PosixCall :=
  if mclDefined then
    (mlockall (MCL_CURRENT ||| MCL_FUTURE),
     [PosixCall.mlockallCall (MCL_CURRENT ||| MCL_FUTURE)])
  else
    (0, [])

end PsychopyExt

namespace PsychopyExt

/-- C1 counterexample: the claim says `setProcessPriority` returns exactly
the OS's reported result with no transformation. With the OS reporting
65536 for priority class 32, the shim returns `(unsigned short)65536 = 0`,
not 65536. -/
theorem C1_counterexample :
    (win32_setProcessPriority (fun _ _ => 65536) 32).fst ≠ 65536 := by
  decide

/-- C1 (amended): `setProcessPriority`/`setThreadPriority` pass the
priority value through unchanged to `SetPriorityClass`/`SetThreadPriority`
on the calling process/thread, and return the OS's reported result reduced
modulo `2^16` (cast through `unsigned short`). -/
theorem C1_amended_passthrough (osP osT : W32Handle → Int → Int) (p q : Int) :
    win32_setProcessPriority osP p =
      (toUShort (osP W32Handle.currentProcess p),
       [W32Call.setPriorityClassCall W32Handle.currentProcess p]) ∧
    win32_setThreadPriority osT q =
      (toUShort (osT W32Handle.currentThread q),
       [W32Call.setThreadPriorityCall W32Handle.currentThread q]) :=
  ⟨rfl, rfl⟩

/-- C2: whenever the argument tuple parses as the integer `n`,
`setVideoMode` makes exactly one vendor call, `bitsSetVideoMode n`, with
the bitmask unmodified, and it reports success (returns 1) iff the vendor
call returns zero, failing (returning `NULL`) iff the vendor call returns
nonzero. -/
theorem C2_mask_passthrough (vendor : Int → Int) (args : List PyObj) (n : Int)
    (h : parseTuple_i args = Option.some n) :
    (bits_setVideoMode vendor args).snd = [BitsCall.bitsSetVideoModeCall n] ∧
    ((bits_setVideoMode vendor args).fst = Option.some 1 ↔ vendor n = 0) ∧
    ((bits_setVideoMode vendor args).fst = Option.none ↔ vendor n ≠ 0) := by
  unfold bits_setVideoMode
  rw [h]
  by_cases hv : vendor n = 0 <;> simp [hv]

/-- C2 witness: concrete instance with args = [int 5] and a vendor that
returns 0. -/
theorem C2_witness :
    parseTuple_i [PyObj.int 5] = Option.some 5 ∧
    ((bits_setVideoMode (fun _ => 0) [PyObj.int 5]).snd =
        [BitsCall.bitsSetVideoModeCall 5] ∧
     ((bits_setVideoMode (fun _ => 0) [PyObj.int 5]).fst = Option.some 1 ↔
        (fun _ => (0 : Int)) 5 = 0) ∧
     ((bits_setVideoMode (fun _ => 0) [PyObj.int 5]).fst = Option.none ↔
        (fun _ => (0 : Int)) 5 ≠ 0)) :=
  ⟨rfl, C2_mask_passthrough (fun _ => 0) [PyObj.int 5] 5 rfl⟩

/-- C3: `init()` makes exactly one vendor call, `bitsInit ""` (the empty
configuration string); it fails (returns `NULL`) iff the vendor status is
negative, and reports success (returns 1) iff the status is non-negative,
with no further decoding of the code. -/
theorem C3_init_empty_config (vendor : String → Int) :
    (bits_init vendor).snd = [BitsCall.bitsInitCall ""] ∧
    ((bits_init vendor).fst = Option.none ↔ vendor "" < 0) ∧
    ((bits_init vendor).fst = Option.some 1 ↔ 0 ≤ vendor "") := by
  refine ⟨rfl, ?_, ?_⟩ <;>
    by_cases h : vendor "" < 0 <;> simp [bits_init, h] <;> omega

/-- C4: `set_self_policy_priority(policy, priority)` builds a scheduling
parameter record whose `sched_priority` field is `priority`, calls
`sched_setscheduler` with pid 0 (the calling process), the given policy
and that record, and returns the OS's status code verbatim (in particular
-1 when the OS rejects the request and 0 when it accepts it), with no
inspection or translation. -/
theorem C4_sched_passthrough (os : Int → Int → sched_param → Int)
    (policy priority : Int) :
    set_self_policy_priority os policy priority =
      (os 0 policy { sched_priority := priority },
       [PosixCall.schedSetschedulerCall 0 policy
          { sched_priority := priority }]) :=
  rfl

/-- C5: when the memory-locking capability is compiled out
(`MCL_CURRENT`/`MCL_FUTURE` not defined), `stop_memory_paging()` returns 0
unconditionally and makes no native call; when the capability is present
it returns exactly the status of `mlockall(MCL_CURRENT | MCL_FUTURE)`,
the request to lock all current and future pages. -/
theorem C5_paging_fallback (mlockall : Nat → Int) (mc mf : Nat) :
    stop_memory_paging false mlockall mc mf = (0, []) ∧
    stop_memory_paging true mlockall mc mf =
      (mlockall (mc ||| mf), [PosixCall.mlockallCall (mc ||| mf)]) :=
  ⟨rfl, rfl⟩

/-- C6 counterexample: the claim says that when the vendor call
`bitsSetVideoMode` returns true (nonzero), `setVideoMode(0x00008000)`
returns success. In the code a nonzero (true) vendor status takes the
`return NULL` branch: with a vendor returning 1, the call fails. -/
theorem C6_counterexample :
    ¬ ((bits_setVideoMode (fun _ => 1) [PyObj.int 32768]).fst =
        Option.some 1) := by
  decide

/-- C6 (amended): `setVideoMode(0x00008000)` (the gamma-correct flag)
returns success=true when the vendor call `bitsSetVideoMode` returns zero,
i.e. reports false from a successful call. -/
theorem C6_amended_gamma (vendor : Int → Int) (h : vendor 32768 = 0) :
    (bits_setVideoMode vendor [PyObj.int 32768]).fst = Option.some 1 := by
  simp [bits_setVideoMode, parseTuple_i, h]

/-- C6 witness: concrete vendor returning 0 on the gamma-correct flag. -/
theorem C6_witness :
    (fun _ => (0 : Int)) 32768 = 0 ∧
    (bits_setVideoMode (fun _ => 0) [PyObj.int 32768]).fst = Option.some 1 :=
  ⟨rfl, C6_amended_gamma (fun _ => 0) rfl⟩

/-- C7: `getRefresh()` signals an error (returns `NULL`) exactly when the
display-settings enumeration call fails, and when the enumeration succeeds
it returns the `dmDisplayFrequency` field of the retrieved settings (built
into a Python float in Hz); the enumeration is always called once, on the
current settings of the default device. -/
theorem C7_getRefresh (o : Option DEVMODE) (dm : DEVMODE) :
    ((win32_getRefresh o).fst = Option.none ↔ o = Option.none) ∧
    (win32_getRefresh (Option.some dm)).fst =
      Option.some dm.dmDisplayFrequency ∧
    (win32_getRefresh o).snd =
      [W32Call.enumDisplaySettingsCall Option.none ENUM_CURRENT_SETTINGS] := by
  cases o <;> simp [win32_getRefresh]

/-- C8: the shim keeps no in-process state (each embedded operation is a
pure function of its oracle alone), so a second `init()` in sequence
forwards a fresh `bitsInit` call: the trace of two successive `init()`
calls holds exactly two vendor calls, and the second result is determined
solely by the vendor's status for that second call (e.g. a negative
`E_ALREADYOPEN` yields a reported failure). -/
theorem C8_init_not_cached (vendor : Nat → String → Int) :
    (bits_init_twice vendor).snd =
      [BitsCall.bitsInitCall "", BitsCall.bitsInitCall ""] ∧
    ((bits_init_twice vendor).fst.snd = Option.none ↔ vendor 1 "" < 0) ∧
    ((bits_init_twice vendor).fst.snd = Option.some 1 ↔ 0 ≤ vendor 1 "") := by
  refine ⟨rfl, ?_, ?_⟩ <;>
    by_cases h : vendor 1 "" < 0 <;>
      simp [bits_init_twice, bits_init, h] <;> omega

/-- C9: the value returned by `setProcessPriority`/`setThreadPriority` is
the OS result reduced modulo `2^16` (the `unsigned short` cast), hence
always in the range 0 to 65535 inclusive. -/
theorem C9_result_mod_65536 (osP osT : W32Handle → Int → Int) (p q : Int) :
    (win32_setProcessPriority osP p).fst =
      osP W32Handle.currentProcess p % 65536 ∧
    0 ≤ (win32_setProcessPriority osP p).fst ∧
    (win32_setProcessPriority osP p).fst ≤ 65535 ∧
    (win32_setThreadPriority osT q).fst =
      osT W32Handle.currentThread q % 65536 ∧
    0 ≤ (win32_setThreadPriority osT q).fst ∧
    (win32_setThreadPriority osT q).fst ≤ 65535 := by
  have h1 := Int.emod_nonneg (osP W32Handle.currentProcess p)
    (show (65536 : Int) ≠ 0 by decide)
  have h2 := Int.emod_lt_of_pos (osP W32Handle.currentProcess p)
    (show (0 : Int) < 65536 by decide)
  have h3 := Int.emod_nonneg (osT W32Handle.currentThread q)
    (show (65536 : Int) ≠ 0 by decide)
  have h4 := Int.emod_lt_of_pos (osT W32Handle.currentThread q)
    (show (0 : Int) < 65536 by decide)
  refine ⟨rfl, ?_, ?_, rfl, ?_, ?_⟩ <;>
    simp only [win32_setProcessPriority, win32_setThreadPriority, toUShort,
      GetCurrentProcess, GetCurrentThread] <;>
    omega

/-- C10: when the argument tuple does not parse as a single integer,
`setVideoMode` returns an error (`NULL`) and the vendor-call trace is
empty: `bitsSetVideoMode` is never invoked. -/
theorem C10_parse_failure_no_call (vendor : Int → Int) (args : List PyObj)
    (h : parseTuple_i args = Option.none) :
    bits_setVideoMode vendor args = (Option.none, []) := by
  unfold bits_setVideoMode
  rw [h]

/-- C10 witness: the empty argument tuple does not parse. -/
theorem C10_witness :
    parseTuple_i [] = Option.none ∧
    bits_setVideoMode (fun _ => 0) [] = (Option.none, []) :=
  ⟨rfl, C10_parse_failure_no_call (fun _ => 0) [] rfl⟩

end PsychopyExt
